import Mathlib

/-!
Verification of the alert-forwarding relay in `src/main.rs` against its
natural-language specification.

The program receives an Alertmanager webhook payload (`AlertGroup`), partitions
its alerts by status using a `HashMap`, renders one Discord embed per status
partition, and POSTs each resulting envelope to a webhook URL taken from the
`DISCORD_WEBHOOK_URL` environment variable.

Modelling notes:
  * Rust `HashMap<String, String>` label maps are modelled as association
    lists (`List (String × String)`) with `List.lookup` playing the role of
    `HashMap::get`; only lookups are performed on them in the source.
  * The `alert_by_status` map built with `entry(..).or_insert(Vec::new())`
    and `push` is modelled by `addAlert`/`partitionByStatus`: an association
    list in key-insertion order whose per-key lists preserve input order —
    exactly the contents of the Rust map.  Rust's `HashMap` iteration order
    is unspecified and per-instance; since at most two keys can occur, every
    possible iteration order is either the insertion order or its reverse,
    so the renderer `renderOrd` takes a `swap : Bool` selecting which.
  * `std::env::var` is modelled by an `Option String` argument; a `none`
    reproduces the `Err` path of `env::var("DISCORD_WEBHOOK_URL")?`.
  * The outbound `reqwest` POST is the external delivery collaborator; it is
    modelled as succeeding, and `forwardAlert` returns the list of
    (url, body) POSTs the code attempts.
  * Rust `str::trim` and `str::to_uppercase` are modelled by the structural
    character-list functions `rustTrim` and `rustToUppercase` below (ASCII
    whitespace / ASCII case mapping, which is what the program's inputs use).
-/

/-- Model of Rust `str::trim`: strip leading and trailing whitespace. -/
def rustTrim (s : String) : String :=
  ⟨((s.data.dropWhile Char.isWhitespace).reverse.dropWhile Char.isWhitespace).reverse⟩

/-- Model of Rust `str::to_uppercase`: uppercase every character. -/
def rustToUppercase (s : String) : String :=
  ⟨s.data.map Char.toUpper⟩

/-- The `Color` palette (`Serialize_repr`, `#[repr(u32)]`). -/
inductive Color where
  | Red
  | Green
  | Grey
  deriving DecidableEq, Repr

/-- Numeric value each palette entry serializes to (`#[repr(u32)]`). -/
def Color.val : Color → Nat
  | .Red => 0x992D22
  | .Green => 0x2ECC71
  | .Grey => 0x95A5A6

/-- Alert status, deserialized from lowercase tokens `firing` / `resolved`. -/
inductive Status where
  | Firing
  | Resolved
  deriving DecidableEq, Repr

/-- The `{:?}` (Debug) token of a status, as used in `format!`. -/
def Status.token : Status → String
  | .Firing => "Firing"
  | .Resolved => "Resolved"

/-- String-to-string label map (`HashMap<String, String>` in the source). -/
abbrev StrMap := List (String × String)

/-- `Annotations { summary, description }`. -/
structure Annotations where
  summary : String
  description : Option String
  deriving DecidableEq, Repr

/-- One alert of the payload. -/
structure Alert where
  status : Status
  labels : StrMap
  annotations : Option Annotations
  fingerprint : String
  deriving DecidableEq, Repr

/-- The inbound payload root `AlertGroup`. -/
structure AlertGroup where
  version : String
  status : Status
  alerts : List Alert
  group_labels : StrMap
  common_labels : StrMap
  common_annotations : Option Annotations
  truncated_alerts : Int
  deriving DecidableEq, Repr

/-- `DiscordEmbedField { name, value }`. -/
structure DiscordEmbedField where
  name : String
  value : String
  deriving DecidableEq, Repr

/-- `DiscordEmbed { title, description, color, fields }`. -/
structure DiscordEmbed where
  title : String
  description : String
  color : Color
  fields : List DiscordEmbedField
  deriving DecidableEq, Repr

/-- The outbound envelope `DiscordContent { content, embeds }`. -/
structure DiscordContent where
  content : Option String
  embeds : List DiscordEmbed
  deriving DecidableEq, Repr

/-- One step of building `alert_by_status`: `entry(status).or_insert(vec![]).push(alert)`.
If an entry for the alert's status exists, the alert is pushed onto its list;
otherwise a fresh entry is inserted. -/
def addAlert : List (Status × List Alert) → Alert → List (Status × List Alert)
  | [], a => [(a.status, [a])]
  | (s, l) :: rest, a =>
      if a.status = s then (s, l ++ [a]) :: rest
      else (s, l) :: addAlert rest a

/-- The `alert_by_status` map of `forward_alert` (lines 98–104), as an
association list in key-insertion order. -/
def partitionByStatus (alerts : List Alert) : List (Status × List Alert) :=
  alerts.foldl addAlert []

/-- The partitions in the order the `for (status, alerts) in alert_by_status`
loop visits them: the map's (unspecified, per-instance) iteration order,
`swap` selecting key-insertion order or its reverse — with at most two keys
these are all the possible orders. -/
def orderedPartitions (swap : Bool) (alerts : List Alert) : List (Status × List Alert) :=
  if swap then (partitionByStatus alerts).reverse else partitionByStatus alerts

/-- The per-alert field rendering of the inner loop of `forward_alert`
(lines 128–165). -/
def renderField (status : Status) (alert : Alert) : DiscordEmbedField :=
  let inst := (alert.labels.lookup "instance").getD "unknown"
  let exported := alert.labels.lookup "exported_instance"
  let inst2 :=
    match exported with
    | some e => if inst = "unknown" ∨ inst = "localhost" then e else inst
    | none => inst
  let alertName := (alert.labels.lookup "alertname").getD "unknown"
  let name := "[" ++ status.token ++ "]: " ++ alertName ++ " on " ++ inst2
  let summary :=
    match alert.annotations with
    | some a => a.description.getD a.summary
    | none => "-"
  let severity :=
    match alert.labels.lookup "severity" with
    | some l => rustToUppercase l
    | none => "INFO"
  let job := (alert.labels.lookup "job").getD "-"
  let value := severity ++ " " ++ job ++ " " ++ summary
  { name := name, value := value }

/-- The per-partition body of the `for (status, alerts) in alert_by_status`
loop (lines 106–168): title, description, color, content and the embed fields. -/
def renderEnvelope (alertName alertSummary : String) (hasSummary : Bool)
    (status : Status) (alerts : List Alert) : DiscordContent :=
  let title := "[" ++ status.token ++ ":" ++ toString alerts.length ++ "] " ++ alertName
  let color := match status with
    | Status.Firing => Color.Red
    | Status.Resolved => Color.Green
  let contents := if hasSummary then some alertSummary else none
  { content := contents
    embeds := [{ title := title
                 description := alertSummary
                 color := color
                 fields := alerts.map (renderField status) }] }

/-- The pure rendering performed by `forward_alert` (lines 88–168): one
envelope per status partition.  `swap` selects the `HashMap` iteration order
over the (at most two) partitions: `false` iterates in key-insertion order,
`true` in the reversed order. -/
def renderOrd (swap : Bool) (g : AlertGroup) : List DiscordContent :=
  let alertName := (g.common_labels.lookup "alertname").getD "unnamed"
  let hasSummary := g.common_annotations.isSome
  let alertSummary :=
    match g.common_annotations with
    | some a => a.summary
    | none => "no summary"
  let parts := partitionByStatus g.alerts
  let iter := if swap then parts.reverse else parts
  iter.map (fun p => renderEnvelope alertName alertSummary hasSummary p.1 p.2)

/-- Error raised by `forward_alert` before any POST: `env::var(..)?` fails
when the variable is absent. -/
inductive FwdError where
  | configMissing
  deriving DecidableEq, Repr

/-- `forward_alert` (lines 84–173): reads the webhook URL from the
environment (`envVar`), trims it, renders the group and POSTs one envelope
per partition.  Returns the POSTs attempted (destination URL with body)
together with the result.  Delivery itself is the external collaborator and
is modelled as succeeding. -/
def forwardAlert (envVar : Option String) (swap : Bool) (g : AlertGroup) :
    List (String × DiscordContent) × Except FwdError Unit :=
  match envVar with
  | none => ([], Except.error FwdError.configMissing)
  | some v =>
      let hookUrl := rustTrim v
      ((renderOrd swap g).map (fun c => (hookUrl, c)), Except.ok ())

/-- The request handler of `main` (lines 75–81): `forward_alert` errors are
turned into HTTP 400 by `try_or_400!`, success yields HTTP 200 `"OK"`.
Returns (status code, body, POSTs attempted). -/
def handleRequest (envVar : Option String) (swap : Bool) (g : AlertGroup) :
    Nat × String × List (String × DiscordContent) :=
  match forwardAlert envVar swap g with
  | (sends, Except.ok _) => (200, "OK", sends)
  | (sends, Except.error _) => (400, "", sends)

/-- The distinct statuses occurring in `alerts`, in first-occurrence order:
exactly the key set of `alert_by_status`, in key-insertion order. -/
def statusKeys (alerts : List Alert) : List Status :=
  alerts.foldl (fun ks a => if a.status ∈ ks then ks else ks ++ [a.status]) []

/-- Erase the one alert field rendering never reads: the fingerprint. -/
def eraseFp (a : Alert) : Alert :=
  { a with fingerprint := "" }

/-- Normalize an `AlertGroup` by erasing every field that the rendering in
`forward_alert` never reads: `version`, the group-level `status`,
`group_labels`, `truncated_alerts`, and each alert's `fingerprint`.
Two groups differ only in those fields exactly when their `scrub`s are equal. -/
def scrub (g : AlertGroup) : AlertGroup :=
  { version := ""
    status := Status.Firing
    alerts := g.alerts.map eraseFp
    group_labels := []
    common_labels := g.common_labels
    common_annotations := g.common_annotations
    truncated_alerts := 0 }

/-- Sample group with no alerts. -/
def c2Sample : AlertGroup :=
  { version := "4", status := Status.Firing, alerts := [], group_labels := []
    common_labels := [], common_annotations := none, truncated_alerts := 0 }

/-- Sample group with no alerts, for the configuration-error analysis. -/
def c8Sample : AlertGroup :=
  { version := "4", status := Status.Firing, alerts := [], group_labels := []
    common_labels := [], common_annotations := none, truncated_alerts := 0 }

/-- Sample group containing one firing and one resolved alert, so that two
status partitions exist. -/
def c9Sample : AlertGroup :=
  { version := "4", status := Status.Firing
    alerts := [{ status := Status.Firing, labels := [("alertname", "A")]
                 annotations := none, fingerprint := "f1" },
               { status := Status.Resolved, labels := [("alertname", "B")]
                 annotations := none, fingerprint := "f2" }]
    group_labels := [], common_labels := [("alertname", "G")]
    common_annotations := none, truncated_alerts := 0 }

/-- Sample group for the irrelevant-field analysis. -/
def c10SampleA : AlertGroup :=
  { version := "4", status := Status.Firing
    alerts := [{ status := Status.Firing, labels := [("alertname", "A")]
                 annotations := some { summary := "S", description := none }
                 fingerprint := "fpA" }]
    group_labels := [("g", "1")], common_labels := [("alertname", "G")]
    common_annotations := some { summary := "CS", description := none }
    truncated_alerts := 0 }

/-- Same as `c10SampleA` except in `version`, group `status`, `group_labels`,
`truncated_alerts` and the alert's `fingerprint`. -/
def c10SampleB : AlertGroup :=
  { version := "5", status := Status.Resolved
    alerts := [{ status := Status.Firing, labels := [("alertname", "A")]
                 annotations := some { summary := "S", description := none }
                 fingerprint := "fpB" }]
    group_labels := [("g", "2")], common_labels := [("alertname", "G")]
    common_annotations := some { summary := "CS", description := none }
    truncated_alerts := 7 }

/-- Sample group with one bare firing alert and no common annotations. -/
def c7Sample : AlertGroup :=
  { version := "4", status := Status.Firing
    alerts := [{ status := Status.Firing, labels := [], annotations := none
                 fingerprint := "f" }]
    group_labels := [], common_labels := [], common_annotations := none
    truncated_alerts := 0 }

/-- The envelope `renderOrd false c7Sample` produces. -/
def c7SampleEnvelope : DiscordContent :=
  { content := none
    embeds := [{ title := "[Firing:1] unnamed", description := "no summary"
                 color := Color.Red
                 fields := [{ name := "[Firing]: unknown on unknown"
                              value := "INFO - -" }] }] }

/-- Sample alert exercising the exported-instance fallback. -/
def c3SampleAlert : Alert :=
  { status := Status.Firing
    labels := [("instance", "localhost"), ("exported_instance", "db-1"),
               ("alertname", "HighCPU"), ("severity", "critical"), ("job", "node")]
    annotations := some { summary := "S", description := some "D" }
    fingerprint := "fp3" }

/-- Sample alert with a severity label and summary-only annotations. -/
def c4SampleAlert : Alert :=
  { status := Status.Resolved
    labels := [("severity", "warning")]
    annotations := some { summary := "Sum", description := none }
    fingerprint := "fp4" }

/-- Sample group with two firing alerts and one resolved alert. -/
def c1Sample : AlertGroup :=
  { version := "4", status := Status.Firing
    alerts := [{ status := Status.Firing, labels := [("alertname", "A")]
                 annotations := none, fingerprint := "f1" },
               { status := Status.Resolved, labels := [("alertname", "B")]
                 annotations := none, fingerprint := "f2" },
               { status := Status.Firing, labels := [("alertname", "C")]
                 annotations := none, fingerprint := "f3" }]
    group_labels := [], common_labels := [("alertname", "Disk")]
    common_annotations := none, truncated_alerts := 0 }

/-- Sample group with three resolved alerts and a named common label. -/
def c5Sample : AlertGroup :=
  { version := "4", status := Status.Resolved
    alerts := [{ status := Status.Resolved, labels := [], annotations := none
                 fingerprint := "f1" },
               { status := Status.Resolved, labels := [], annotations := none
                 fingerprint := "f2" },
               { status := Status.Resolved, labels := [], annotations := none
                 fingerprint := "f3" }]
    group_labels := [], common_labels := [("alertname", "DiskFull")]
    common_annotations := none, truncated_alerts := 0 }

/-- Sample group with one alert of each status, for the color mapping. -/
def c6Sample : AlertGroup :=
  { version := "4", status := Status.Firing
    alerts := [{ status := Status.Firing, labels := [], annotations := none
                 fingerprint := "f1" },
               { status := Status.Resolved, labels := [], annotations := none
                 fingerprint := "f2" }]
    group_labels := [], common_labels := [], common_annotations := none
    truncated_alerts := 0 }

theorem statusKeys_mono (l : List Alert) : ∀ acc : List Status, ∀ s ∈ acc,
    s ∈ l.foldl (fun ks a => if a.status ∈ ks then ks else ks ++ [a.status]) acc := by
  induction l with
  | nil => intro acc s hs; simpa using hs
  | cons x xs ih =>
      intro acc s hs
      rw [List.foldl_cons]
      apply ih
      by_cases hx : x.status ∈ acc
      · simpa [hx] using hs
      · simp [hx, List.mem_append, hs]

theorem status_mem_statusKeys_aux (l : List Alert) : ∀ acc : List Status, ∀ a ∈ l,
    a.status ∈ l.foldl (fun ks a => if a.status ∈ ks then ks else ks ++ [a.status]) acc := by
  induction l with
  | nil => intro acc a ha; simp at ha
  | cons x xs ih =>
      intro acc a ha
      rw [List.foldl_cons]
      rcases List.mem_cons.mp ha with rfl | h
      · apply statusKeys_mono
        by_cases hx : a.status ∈ acc
        · simp [hx]
        · simp [hx]
      · exact ih _ a h

theorem status_mem_statusKeys {a : Alert} {l : List Alert} (h : a ∈ l) :
    a.status ∈ statusKeys l :=
  status_mem_statusKeys_aux l [] a h

theorem statusKeys_nodup_aux (l : List Alert) : ∀ acc : List Status, acc.Nodup →
    (l.foldl (fun ks a => if a.status ∈ ks then ks else ks ++ [a.status]) acc).Nodup := by
  induction l with
  | nil => intro acc h; simpa using h
  | cons x xs ih =>
      intro acc h
      rw [List.foldl_cons]
      apply ih
      by_cases hx : x.status ∈ acc
      · simpa [hx] using h
      · simp [hx, List.nodup_append, h]

theorem statusKeys_nodup (l : List Alert) : (statusKeys l).Nodup :=
  statusKeys_nodup_aux l [] List.nodup_nil

theorem filter_status_eq_nil {l : List Alert} {t : Status} (h : t ∉ statusKeys l) :
    l.filter (fun a => a.status == t) = [] := by
  rw [List.filter_eq_nil_iff]
  intro a ha hbeq
  exact h (beq_iff_eq.mp hbeq ▸ status_mem_statusKeys ha)

theorem addAlert_map_form (x : Alert) : ∀ (K : List Status) (F : Status → List Alert),
    K.Nodup →
    addAlert (K.map (fun s => (s, F s))) x =
      (if x.status ∈ K then
        K.map (fun s => (s, F s ++ if x.status = s then [x] else []))
      else K.map (fun s => (s, F s)) ++ [(x.status, [x])]) := by
  intro K
  induction K with
  | nil => intro F _; simp [addAlert]
  | cons k K ih =>
      intro F hK
      rw [List.map_cons]
      simp only [addAlert]
      by_cases hx : x.status = k
      · rw [if_pos hx]
        have hmem : x.status ∈ k :: K := by rw [hx]; exact List.mem_cons_self k K
        rw [if_pos hmem, List.map_cons, if_pos hx]
        congr 1
        apply List.map_congr_left
        intro s hs
        have hne : x.status ≠ s := by
          rw [hx]
          exact fun hks => (List.nodup_cons.mp hK).1 (hks ▸ hs)
        rw [if_neg hne, List.append_nil]
      · rw [if_neg hx, ih F (List.nodup_cons.mp hK).2]
        by_cases hxK : x.status ∈ K
        · rw [if_pos hxK, if_pos (List.mem_cons_of_mem k hxK), List.map_cons,
            if_neg hx, List.append_nil]
        · have hout : x.status ∉ k :: K := by simp [List.mem_cons, hx, hxK]
          rw [if_neg hxK, if_neg hout, List.cons_append]

theorem partitionByStatus_append_singleton (xs : List Alert) (x : Alert) :
    partitionByStatus (xs ++ [x]) = addAlert (partitionByStatus xs) x := by
  simp [partitionByStatus, List.foldl_append]

theorem statusKeys_append_singleton (xs : List Alert) (x : Alert) :
    statusKeys (xs ++ [x]) =
      (if x.status ∈ statusKeys xs then statusKeys xs
       else statusKeys xs ++ [x.status]) := by
  simp [statusKeys, List.foldl_append]

theorem filter_status_append_singleton (xs : List Alert) (x : Alert) (s : Status) :
    (xs ++ [x]).filter (fun a => a.status == s) =
      xs.filter (fun a => a.status == s) ++ (if x.status = s then [x] else []) := by
  rw [List.filter_append]
  congr 1
  rw [List.filter_cons]
  by_cases h : x.status = s
  · simp [h]
  · simp [h, List.filter_nil]

theorem partitionByStatus_eq_canonical (l : List Alert) :
    partitionByStatus l =
      (statusKeys l).map (fun s => (s, l.filter (fun a => a.status == s))) := by
  induction l using List.reverseRecOn with
  | nil => rfl
  | append_singleton xs x ih =>
      rw [partitionByStatus_append_singleton, ih,
        addAlert_map_form x _ _ (statusKeys_nodup xs), statusKeys_append_singleton]
      by_cases hx : x.status ∈ statusKeys xs
      · rw [if_pos hx, if_pos hx]
        apply List.map_congr_left
        intro s _
        rw [filter_status_append_singleton]
      · rw [if_neg hx, if_neg hx, List.map_append, List.map_cons, List.map_nil]
        congr 1
        · apply List.map_congr_left
          intro s hs
          have hne : x.status ≠ s := fun h => hx (h ▸ hs)
          rw [filter_status_append_singleton, if_neg hne, List.append_nil]
        · rw [filter_status_append_singleton, filter_status_eq_nil hx, if_pos rfl,
            List.nil_append]

theorem flatten_addAlert (x : Alert) : ∀ M : List (Status × List Alert),
    ((addAlert M x).map Prod.snd).flatten.Perm ((M.map Prod.snd).flatten ++ [x]) := by
  intro M
  induction M with
  | nil =>
      simp only [addAlert, List.map_cons, List.map_nil, List.flatten_cons,
        List.flatten_nil, List.append_nil, List.nil_append]
      exact List.Perm.refl _
  | cons p M' ih =>
      obtain ⟨s, l⟩ := p
      simp only [addAlert, List.map_cons, List.flatten_cons]
      by_cases h : x.status = s
      · rw [if_pos h]
        simp only [List.map_cons, List.flatten_cons]
        rw [List.append_assoc l [x] ((M'.map Prod.snd).flatten),
          List.append_assoc l ((M'.map Prod.snd).flatten) [x]]
        exact List.Perm.append_left l List.perm_append_comm
      · rw [if_neg h]
        simp only [List.map_cons, List.flatten_cons]
        rw [List.append_assoc l ((M'.map Prod.snd).flatten) [x]]
        exact List.Perm.append_left l ih

theorem flatten_partitionByStatus (l : List Alert) :
    ((partitionByStatus l).map Prod.snd).flatten.Perm l := by
  induction l using List.reverseRecOn with
  | nil => exact List.Perm.refl _
  | append_singleton xs x ih =>
      rw [partitionByStatus_append_singleton]
      exact (flatten_addAlert x _).trans (List.Perm.append_right [x] ih)

theorem partition_length_sum (l : List Alert) :
    ((partitionByStatus l).map (fun p => p.2.length)).sum = l.length := by
  have h := (flatten_partitionByStatus l).length_eq
  rw [List.length_flatten, List.map_map] at h
  exact h

theorem renderOrd_false (g : AlertGroup) :
    renderOrd false g =
      (partitionByStatus g.alerts).map
        (fun p => renderEnvelope ((g.common_labels.lookup "alertname").getD "unnamed")
          (match g.common_annotations with
           | some a => a.summary
           | none => "no summary") g.common_annotations.isSome p.1 p.2) := rfl

theorem renderOrd_true (g : AlertGroup) :
    renderOrd true g =
      (partitionByStatus g.alerts).reverse.map
        (fun p => renderEnvelope ((g.common_labels.lookup "alertname").getD "unnamed")
          (match g.common_annotations with
           | some a => a.summary
           | none => "no summary") g.common_annotations.isSome p.1 p.2) := rfl

theorem renderField_eraseFp (s : Status) (a : Alert) :
    renderField s (eraseFp a) = renderField s a := by
  cases a
  rfl

theorem addAlert_eraseFp (x : Alert) : ∀ M : List (Status × List Alert),
    addAlert (M.map (fun p => (p.1, p.2.map eraseFp))) (eraseFp x) =
      (addAlert M x).map (fun p => (p.1, p.2.map eraseFp)) := by
  intro M
  induction M with
  | nil => rfl
  | cons p M' ih =>
      obtain ⟨s, l⟩ := p
      simp only [List.map_cons, addAlert]
      by_cases h : x.status = s
      · rw [if_pos (show (eraseFp x).status = s from h), if_pos h, List.map_cons]
        simp [List.map_append]
      · rw [if_neg (show ¬(eraseFp x).status = s from h), if_neg h, List.map_cons, ih]

theorem partition_map_eraseFp (l : List Alert) :
    partitionByStatus (l.map eraseFp) =
      (partitionByStatus l).map (fun p => (p.1, p.2.map eraseFp)) := by
  suffices h : ∀ M : List (Status × List Alert),
      (l.map eraseFp).foldl addAlert (M.map (fun p => (p.1, p.2.map eraseFp))) =
        (l.foldl addAlert M).map (fun p => (p.1, p.2.map eraseFp)) by
    simpa [partitionByStatus] using h []
  induction l with
  | nil => intro M; rfl
  | cons x xs ih =>
      intro M
      simp only [List.map_cons, List.foldl_cons]
      rw [addAlert_eraseFp]
      exact ih (addAlert M x)

theorem renderEnvelope_map_eraseFp (aN aS : String) (hS : Bool) (s : Status)
    (l : List Alert) :
    renderEnvelope aN aS hS s (l.map eraseFp) = renderEnvelope aN aS hS s l := by
  simp [renderEnvelope, List.map_map, Function.comp, renderField_eraseFp]

theorem renderOrd_scrub (swap : Bool) (g : AlertGroup) :
    renderOrd swap (scrub g) = renderOrd swap g := by
  cases swap
  · rw [renderOrd_false, renderOrd_false,
      show (scrub g).alerts = g.alerts.map eraseFp from rfl, partition_map_eraseFp,
      List.map_map]
    apply List.map_congr_left
    intro p _
    exact renderEnvelope_map_eraseFp _ _ _ p.1 p.2
  · rw [renderOrd_true, renderOrd_true,
      show (scrub g).alerts = g.alerts.map eraseFp from rfl, partition_map_eraseFp,
      ← List.map_reverse, List.map_map]
    apply List.map_congr_left
    intro p _
    exact renderEnvelope_map_eraseFp _ _ _ p.1 p.2

theorem orderedPartitions_false (l : List Alert) :
    orderedPartitions false l = partitionByStatus l := rfl

theorem orderedPartitions_true (l : List Alert) :
    orderedPartitions true l = (partitionByStatus l).reverse := rfl

theorem renderOrd_eq_ordered (swap : Bool) (g : AlertGroup) :
    renderOrd swap g = (orderedPartitions swap g.alerts).map
      (fun p => renderEnvelope ((g.common_labels.lookup "alertname").getD "unnamed")
        (match g.common_annotations with
         | some a => a.summary
         | none => "no summary") g.common_annotations.isSome p.1 p.2) := rfl

theorem renderOrd_field_count (swap : Bool) (g : AlertGroup) :
    ((renderOrd swap g).map
        (fun e => (e.embeds.map (fun em => em.fields.length)).sum)).sum
      = g.alerts.length := by
  rw [renderOrd_eq_ordered, List.map_map]
  have hpt : ∀ it : List (Status × List Alert),
      (it.map ((fun e => (e.embeds.map (fun em => em.fields.length)).sum) ∘
        (fun p => renderEnvelope ((g.common_labels.lookup "alertname").getD "unnamed")
          (match g.common_annotations with
           | some a => a.summary
           | none => "no summary") g.common_annotations.isSome p.1 p.2))).sum
        = (it.map (fun p => p.2.length)).sum := by
    intro it
    congr 1
    apply List.map_congr_left
    intro p _
    simp [renderEnvelope]
  cases swap
  · rw [orderedPartitions_false]
    exact (hpt _).trans (partition_length_sum g.alerts)
  · rw [orderedPartitions_true]
    exact (hpt _).trans
      (by rw [List.map_reverse, List.sum_reverse]; exact partition_length_sum g.alerts)

/-- C1: `renderOrd` partitions the alerts totally and disjointly by status:
the partition statuses are pairwise distinct, each partition is exactly the
subsequence of input alerts of its status (so field order is original relative
input order), the concatenation of all partitions is a permutation of the
input (every alert appears in exactly one partition), each envelope's single
field list is the rendering of its partition's alerts in order, and the total
field count over all envelopes equals the input alert count. -/
theorem c1_partition_total_disjoint_ordered (g : AlertGroup) (swap : Bool) :
    ((partitionByStatus g.alerts).map Prod.fst).Nodup ∧
    (∀ p ∈ partitionByStatus g.alerts,
        p.2 = g.alerts.filter (fun a => a.status == p.1)) ∧
    ((partitionByStatus g.alerts).map Prod.snd).flatten.Perm g.alerts ∧
    (renderOrd swap g).map (fun e => e.embeds.map (fun em => em.fields)) =
      (orderedPartitions swap g.alerts).map (fun p => [p.2.map (renderField p.1)]) ∧
    ((renderOrd swap g).map
        (fun e => (e.embeds.map (fun em => em.fields.length)).sum)).sum
      = g.alerts.length := by
  refine ⟨?_, ?_, flatten_partitionByStatus g.alerts, ?_, renderOrd_field_count swap g⟩
  · rw [partitionByStatus_eq_canonical, List.map_map,
      show (Prod.fst ∘ fun s => ((s, List.filter (fun a => a.status == s) g.alerts) :
        Status × List Alert)) = id from rfl, List.map_id]
    exact statusKeys_nodup g.alerts
  · intro p hp
    rw [partitionByStatus_eq_canonical] at hp
    obtain ⟨s, _, rfl⟩ := List.mem_map.mp hp
    rfl
  · rw [renderOrd_eq_ordered, List.map_map]
    apply List.map_congr_left
    intro p _
    simp [renderEnvelope]

/-- Witness for C1 at a concrete group with two firing and one resolved
alert: the total field count over all envelopes is 3. -/
theorem c1_witness :
    ((renderOrd false c1Sample).map
        (fun e => (e.embeds.map (fun em => em.fields.length)).sum)).sum = 3 :=
  ((c1_partition_total_disjoint_ordered c1Sample false).2.2.2.2).trans (by decide)

/-- C2: a group with no alerts renders to an empty envelope sequence, no POST
is attempted, and the request succeeds with HTTP 200 `"OK"`. -/
theorem c2_empty_group_no_delivery (swap : Bool) (g : AlertGroup) (url : String)
    (h : g.alerts = []) :
    renderOrd swap g = [] ∧ handleRequest (some url) swap g = (200, "OK", []) := by
  have hr : renderOrd swap g = [] := by
    cases swap
    · rw [renderOrd_false, h]; rfl
    · rw [renderOrd_true, h]; rfl
  refine ⟨hr, ?_⟩
  simp [handleRequest, forwardAlert, hr]

/-- Witness for C2: the empty sample group. -/
theorem c2_witness :
    renderOrd false c2Sample = [] ∧
    handleRequest (some "https://example.test/hook") false c2Sample
      = (200, "OK", []) :=
  c2_empty_group_no_delivery false c2Sample "https://example.test/hook" rfl

/-- C3: the rendered field name is `[<STATUS>]: <alertname> on <instance>`,
where the alert name and the instance fall back to `unknown` when their
labels are absent, and the instance is replaced by the `exported_instance`
label exactly when that label is present and the instance is `unknown` or
`localhost`. -/
theorem c3_field_name (s : Status) (a : Alert) :
    (renderField s a).name =
      "[" ++ s.token ++ "]: " ++ ((a.labels.lookup "alertname").getD "unknown")
        ++ " on " ++
        (if ((a.labels.lookup "instance").getD "unknown" = "unknown" ∨
              (a.labels.lookup "instance").getD "unknown" = "localhost") ∧
            (a.labels.lookup "exported_instance").isSome
         then (a.labels.lookup "exported_instance").getD "unknown"
         else (a.labels.lookup "instance").getD "unknown") := by
  cases hE : a.labels.lookup "exported_instance" with
  | none => simp [renderField, hE]
  | some e =>
      by_cases hc : ((a.labels.lookup "instance").getD "unknown" = "unknown" ∨
          (a.labels.lookup "instance").getD "unknown" = "localhost")
      · simp [renderField, hE, hc]
      · simp [renderField, hE, hc]

/-- Witness for C3: a localhost instance with an exported instance. -/
theorem c3_witness :
    (renderField Status.Firing c3SampleAlert).name = "[Firing]: HighCPU on db-1" :=
  (c3_field_name Status.Firing c3SampleAlert).trans (by decide)

/-- C4: the rendered field value is `<severity> <job> <summary_text>`
single-space separated, where severity is the uppercased `severity` label or
`INFO`, job is the `job` label or `-`, and the summary text is the
annotation description if present, else the annotation summary, else `-`
when the alert has no annotations. -/
theorem c4_field_value (s : Status) (a : Alert) :
    (renderField s a).value =
      (match a.labels.lookup "severity" with
       | some v => rustToUppercase v
       | none => "INFO") ++ " " ++
      ((a.labels.lookup "job").getD "-") ++ " " ++
      (match a.annotations with
       | some an =>
           match an.description with
           | some d => d
           | none => an.summary
       | none => "-") := by
  cases hA : a.annotations with
  | none => cases hS : a.labels.lookup "severity" <;> simp [renderField, hA, hS]
  | some an =>
      cases hD : an.description <;> cases hS : a.labels.lookup "severity" <;>
        simp [renderField, hA, hD, hS]

/-- Witness for C4: severity `warning`, no job label, summary-only
annotations. -/
theorem c4_witness :
    (renderField Status.Resolved c4SampleAlert).value = "WARNING - Sum" :=
  (c4_field_value Status.Resolved c4SampleAlert).trans (by decide)

/-- C5: every produced message's title is `[<STATUS>:<count>] <alert_name>`,
with the status Debug token, the partition's alert count, and the group's
`alertname` common label (or `unnamed` when absent). -/
theorem c5_title_format (g : AlertGroup) (swap : Bool) :
    (renderOrd swap g).map (fun e => e.embeds.map (fun em => em.title)) =
      (orderedPartitions swap g.alerts).map
        (fun p => ["[" ++ p.1.token ++ ":" ++ toString p.2.length ++ "] "
                     ++ ((g.common_labels.lookup "alertname").getD "unnamed")]) := by
  rw [renderOrd_eq_ordered, List.map_map]
  apply List.map_congr_left
  intro p _
  simp [renderEnvelope]

/-- Witness for C5: three resolved alerts with common label
`alertname = DiskFull` produce the title `[Resolved:3] DiskFull`. -/
theorem c5_witness :
    (renderOrd false c5Sample).map (fun e => e.embeds.map (fun em => em.title)) =
      [["[Resolved:3] DiskFull"]] :=
  (c5_title_format c5Sample false).trans (by decide)

/-- C6: every produced message's color is Red for a Firing partition and
Green for a Resolved partition; Grey is never selected; and the palette
serializes as Red = 0x992D22, Green = 0x2ECC71, Grey = 0x95A5A6. -/
theorem c6_color_mapping (g : AlertGroup) (swap : Bool) :
    (renderOrd swap g).map (fun e => e.embeds.map (fun em => em.color)) =
      (orderedPartitions swap g.alerts).map
        (fun p => [if p.1 = Status.Firing then Color.Red else Color.Green]) ∧
    (∀ e ∈ renderOrd swap g, ∀ em ∈ e.embeds, em.color ≠ Color.Grey) ∧
    Color.val Color.Red = 0x992D22 ∧ Color.val Color.Green = 0x2ECC71 ∧
    Color.val Color.Grey = 0x95A5A6 := by
  refine ⟨?_, ?_, rfl, rfl, rfl⟩
  · rw [renderOrd_eq_ordered, List.map_map]
    apply List.map_congr_left
    intro p _
    obtain ⟨ps, pl⟩ := p
    cases ps <;> simp [renderEnvelope]
  · intro e he em hem
    rw [renderOrd_eq_ordered] at he
    obtain ⟨p, _, rfl⟩ := List.mem_map.mp he
    obtain ⟨ps, pl⟩ := p
    have hem2 := List.mem_singleton.mp hem
    subst hem2
    cases ps <;> simp [renderEnvelope]

/-- Witness for C6: one firing and one resolved alert give colors Red then
Green (in key-insertion iteration order). -/
theorem c6_witness :
    (renderOrd false c6Sample).map (fun e => e.embeds.map (fun em => em.color)) =
      [[Color.Red], [Color.Green]] :=
  ((c6_color_mapping c6Sample false).1).trans (by decide)

/-- C7: every produced envelope's `content` is the group's common-annotation
summary exactly when common annotations are present (absent otherwise), and
every message's description is that summary, or `no summary` when absent —
the same value for every partition. -/
theorem c7_envelope_content (g : AlertGroup) (swap : Bool) :
    ∀ e ∈ renderOrd swap g,
      e.content = Option.map (fun an => an.summary) g.common_annotations ∧
      e.embeds.map (fun em => em.description) =
        [(Option.map (fun an => an.summary) g.common_annotations).getD "no summary"] := by
  intro e he
  rw [renderOrd_eq_ordered] at he
  obtain ⟨p, _, rfl⟩ := List.mem_map.mp he
  cases hca : g.common_annotations <;> simp [renderEnvelope, hca]

/-- Witness for C7: the envelope of a group without common annotations has
no content and the description `no summary`. -/
theorem c7_witness :
    c7SampleEnvelope.content
        = Option.map (fun an => an.summary) c7Sample.common_annotations ∧
    c7SampleEnvelope.embeds.map (fun em => em.description) =
      [(Option.map (fun an => an.summary) c7Sample.common_annotations).getD
        "no summary"] :=
  c7_envelope_content c7Sample false c7SampleEnvelope (by decide)

/-- C8 counterexample: with the destination URL set to whitespace (so empty
after trimming) and a group with no alerts, the request is answered
HTTP 200 `"OK"` — not 400 as the claim requires for an empty-after-trimming
configuration value. -/
theorem c8_counterexample :
    rustTrim "   " = "" ∧ handleRequest (some "   ") false c8Sample = (200, "OK", []) := by
  exact ⟨by decide, by decide⟩

/-- C8 (amended): if the destination-URL value is absent from the
environment, processing fails with a configuration error surfaced as
HTTP 400 and no outbound delivery is attempted; a present value is only
trimmed, never checked for emptiness, so processing continues with the
trimmed URL (and, e.g., succeeds outright when there are no alerts). -/
theorem c8_config_error_amended (swap : Bool) (g : AlertGroup) (v : String) :
    handleRequest none swap g = (400, "", []) ∧
    forwardAlert (some v) swap g =
      ((renderOrd swap g).map (fun c => (rustTrim v, c)), Except.ok ()) :=
  ⟨rfl, rfl⟩

/-- Witness for C8 (amended): a request with the variable absent fails with
HTTP 400 and attempts no POST. -/
theorem c8_witness : handleRequest none false c8Sample = (400, "", []) :=
  (c8_config_error_amended false c8Sample "").1

/-- C9 counterexample: for a group with one firing and one resolved alert the
two possible iteration orders of the status map produce different envelope
sequences, so two renderings of the same group (each with a fresh, randomly
seeded `HashMap`) need not be structurally identical sequences. -/
theorem c9_counterexample : renderOrd false c9Sample ≠ renderOrd true c9Sample := by
  decide

/-- C9 (amended): rendering is a pure function of the input up to the
unspecified partition iteration order: for any two iteration orders the
envelope sequences are permutations of each other, and they coincide
whenever the orders coincide. -/
theorem c9_render_stable_up_to_order (g : AlertGroup) (b1 b2 : Bool) :
    (renderOrd b1 g).Perm (renderOrd b2 g) := by
  have key : (renderOrd true g).Perm (renderOrd false g) := by
    rw [renderOrd_true, renderOrd_false, List.map_reverse]
    exact List.reverse_perm _
  cases b1 <;> cases b2
  · exact List.Perm.refl _
  · exact key.symm
  · exact key
  · exact List.Perm.refl _

/-- Witness for C9 (amended): the two orders on the mixed sample group. -/
theorem c9_witness : (renderOrd false c9Sample).Perm (renderOrd true c9Sample) :=
  c9_render_stable_up_to_order c9Sample false true

/-- C10: rendering reads nothing but the alerts' statuses, labels and
annotations and the group's common labels and common annotations: two groups
that agree after `scrub` — i.e. differ only in `version`, group `status`,
`group_labels`, `truncated_alerts`, or alert fingerprints — render to
identical envelope sequences under the same iteration order. -/
theorem c10_irrelevant_fields (swap : Bool) (g1 g2 : AlertGroup)
    (h : scrub g1 = scrub g2) :
    renderOrd swap g1 = renderOrd swap g2 := by
  rw [← renderOrd_scrub swap g1, h, renderOrd_scrub]

/-- Witness for C10: two sample groups differing in version, group status,
group labels, truncation count and fingerprint render identically. -/
theorem c10_witness : renderOrd false c10SampleA = renderOrd false c10SampleB :=
  c10_irrelevant_fields false c10SampleA c10SampleB (by decide)
